import Mathlib

/-!
Shallow embedding of the trading bot `app.py` (single-file Flask/Telegram
Binance bot).  Decimal values reported by the exchange are modelled as
rationals (`ℚ`); dictionaries whose keys are sometimes absent are modelled
with `Option` fields; external inputs (ticker prices, wallet balances,
exchange position records) are passed explicitly as arguments to the pure
functions that embed each code path.
-/

/-- One OHLC candle as consumed by the indicator code: the source reads
`k[2]` (high), `k[3]` (low) and `k[4]` (close) from each kline row. -/
structure Kline where
  high : ℚ
  low : ℚ
  close : ℚ
deriving DecidableEq, Repr

/-- Embedding of `calculate_ema(klines, period)` (app.py lines 86-100):
closes are extracted, `None` is returned when fewer than `period` closes
exist, otherwise the EMA list is seeded with the simple average of the
first `period` closes and each later close is blended in with multiplier
`2/(period+1)`; the last element of that list is returned (here the fold
over the remaining closes). -/
def calculate_ema (klines : List Kline) (period : ℕ) : Option ℚ :=
  let closes := klines.map Kline.close
  if closes.length < period then
    none
  else
    let multiplier : ℚ := 2 / (period + 1)
    some ((closes.drop period).foldl
      (fun prev c => (c - prev) * multiplier + prev)
      ((closes.take period).sum / period))

/-- The true-range list built by `calculate_atr` (app.py lines 107-118):
for each candle after the first, `max(high - low, |high - prevClose|,
|low - prevClose|)`. -/
def true_ranges : List Kline → List ℚ
  | [] => []
  | [_] => []
  | k0 :: k1 :: rest =>
    max (k1.high - k1.low) (max |k1.high - k0.close| |k1.low - k0.close|) ::
      true_ranges (k1 :: rest)

/-- Embedding of `calculate_atr(klines, period)` (app.py lines 102-124):
`None` when fewer than `period + 1` candles (or fewer than `period` true
ranges) are available, otherwise the mean of the last `period` true
ranges. -/
def calculate_atr (klines : List Kline) (period : ℕ) : Option ℚ :=
  if klines.length < period + 1 then
    none
  else
    let trs := true_ranges klines
    if trs.length < period then
      none
    else
      some ((trs.drop (trs.length - period)).sum / period)

/-- Result dictionary of `check_market_conditions`; keys that are absent in
some of the returned dictionaries are `Option` fields. -/
structure MarketResult where
  valid : Bool
  reason : Option String
  ema_slope : Option ℚ
  atr_percent : Option ℚ
  trend : Option String
deriving DecidableEq, Repr

/-- Embedding of `check_market_conditions` (app.py lines 126-180) on an
already-fetched candle list.  The numeric interpolation inside the issue
messages (`{ema_slope:.3f}` etc.) is display formatting and is elided from
the modelled issue strings.  `klines[-1]` is modelled with `getLastD`
(the subscript is only reached when at least 21 candles are present). -/
def check_market_conditions (klines : List Kline) : MarketResult :=
  let ema_9 := calculate_ema klines 9
  let ema_20 := calculate_ema klines 20
  let atr := calculate_atr klines 14
  if ema_9.isNone || ema_20.isNone || atr.isNone then
    { valid := false
      reason := some "Insufficient data for technical analysis"
      ema_slope := none, atr_percent := none, trend := none }
  else
    let current_price := (klines.getLastD ⟨0, 0, 0⟩).close
    let ema_slope := ((ema_9.getD 0 - ema_20.getD 0) / current_price) * 100
    let atr_percent := (atr.getD 0 / current_price) * 100
    let sideways_threshold : ℚ := 15 / 100
    let atr_threshold : ℚ := 10 / 100
    let issues :=
      (if |ema_slope| < sideways_threshold then
        ["Sideways market detected"] else []) ++
      (if atr_percent < atr_threshold then
        ["Low volatility"] else [])
    if issues = [] then
      { valid := true
        reason := none
        ema_slope := some ema_slope
        atr_percent := some atr_percent
        trend := some (if ema_slope > 0 then "BULLISH" else "BEARISH") }
    else
      { valid := false
        reason := some (String.intercalate " | " issues)
        ema_slope := some ema_slope
        atr_percent := some atr_percent
        trend := none }

/-- Direction of a derivatives trade: the source keeps the strings LONG /
SHORT. -/
inductive Side
  | LONG
  | SHORT
deriving DecidableEq, Repr

/-- Result dictionary of `calculate_pnl` (spot). -/
structure PnlData where
  current_price : ℚ
  current_value : ℚ
  pnl : ℚ
deriving DecidableEq, Repr

/-- Embedding of `calculate_pnl(pair, buy_price, current_balance)`
(app.py lines 530-548): the ticker price fetched inside the function is
passed as `current_price`; the P&L is
`current_balance*current_price - current_balance*buy_price`. -/
def calculate_pnl (buy_price current_balance current_price : ℚ) : PnlData :=
  let current_value := current_balance * current_price
  let invested_value := current_balance * buy_price
  { current_price := current_price
    current_value := current_value
    pnl := current_value - invested_value }

/-- The exchange-side record returned by `futures_position_information`
for the traded symbol.  The source reads only `positionAmt` and
`unRealizedProfit`; the exchange-reported `entryPrice` is also modelled
in order to express that the code never consults it. -/
structure FuturesPosition where
  position_amt : ℚ
  entry_price : ℚ
  unrealized_profit : ℚ
deriving DecidableEq, Repr

/-- Result dictionary of `calculate_futures_pnl`; the early-return
dictionary on a closed position lacks the `unrealized_pnl`,
`position_amt` and `actual_quantity` keys, hence the `Option` fields. -/
structure FuturesPnl where
  current_price : ℚ
  pnl : ℚ
  unrealized_pnl : Option ℚ
  position_amt : Option ℚ
  actual_quantity : Option ℚ
  position_closed : Bool
deriving DecidableEq, Repr

/-- Embedding of `calculate_futures_pnl(pair, entry_price, side, quantity)`
(app.py lines 550-590): the position record and the futures ticker price
fetched inside the function are passed explicitly.  A zero
`positionAmt` short-circuits to `position_closed`.  Otherwise the P&L is
locally recomputed from the ticker price and `abs(positionAmt)`
(`(current - entry) * qty` for LONG, reversed for SHORT); the
exchange-reported `unRealizedProfit` is carried alongside. -/
def calculate_futures_pnl (entry_price : ℚ) (side : Side)
    (pos : FuturesPosition) (ticker_price : ℚ) : FuturesPnl :=
  if pos.position_amt = 0 then
    { current_price := 0, pnl := 0
      unrealized_pnl := none, position_amt := none, actual_quantity := none
      position_closed := true }
  else
    let actual_qty := |pos.position_amt|
    let pnl :=
      if side = Side.LONG then
        (ticker_price - entry_price) * actual_qty
      else
        (entry_price - ticker_price) * actual_qty
    { current_price := ticker_price
      pnl := pnl
      unrealized_pnl := some pos.unrealized_profit
      position_amt := some pos.position_amt
      actual_quantity := some actual_qty
      position_closed := false }

/-- Outcome of one poll cycle of the spot monitor loop. -/
inductive SpotAction
  | externalClosure
  | takeProfit (pnl : ℚ)
  | stopLossHit (pnl : ℚ)
  | continueMonitor (pnl : ℚ)
deriving DecidableEq, Repr

/-- One successful poll cycle of `monitor_trade` (app.py lines 611-760):
`balance_check_due` models whether the 10-second balance-check interval
has elapsed; `current_balance` is the live wallet balance fetched by
`get_asset_balance` this cycle (it is fetched in both branches of the
interval check); `current_price` is the ticker price read inside
`calculate_pnl`.  The cycle detects external closure when the check is
due and the balance fell below 1% of the recorded quantity, then compares
the computed P&L against the profit target (`>=`) and, when a stop loss
is set, against its negation (`<=`). -/
def monitor_trade_cycle (buy_price quantity profit_target : ℚ)
    (stop_loss : Option ℚ) (balance_check_due : Bool)
    (current_balance current_price : ℚ) : SpotAction :=
  if balance_check_due ∧ current_balance < quantity * (1 / 100) then
    SpotAction.externalClosure
  else
    let pnl_data := calculate_pnl buy_price current_balance current_price
    let current_pnl := pnl_data.pnl
    if current_pnl ≥ profit_target then
      SpotAction.takeProfit current_pnl
    else
      match stop_loss with
      | some sl =>
        if current_pnl ≤ -sl then SpotAction.stopLossHit current_pnl
        else SpotAction.continueMonitor current_pnl
      | none => SpotAction.continueMonitor current_pnl

/-- Outcome of one poll cycle of the futures monitor loop. -/
inductive FuturesAction
  | externalClosure
  | takeProfit (pnl : ℚ)
  | stopLossHit (pnl : ℚ)
  | continueMonitor (pnl : ℚ)
deriving DecidableEq, Repr

/-- One successful poll cycle of `monitor_futures_trade` (app.py lines
789-919), returning the action together with the local loop variables `quantity`
and `entry_price` after the cycle.  The cycle first detects a
closed position, then reconciles the local quantity against
`actual_quantity` (overwritten when the absolute delta exceeds 0.001;
the source never touches `entry_price`), and finally compares
the `pnl` field of the P&L data against the profit target (`>=`) and the negated stop
loss (`<=`). -/
def monitor_futures_trade_cycle (entry_price quantity profit_target : ℚ)
    (stop_loss : Option ℚ) (side : Side)
    (pos : FuturesPosition) (ticker_price : ℚ) :
    FuturesAction × ℚ × ℚ :=
  let pnl_data := calculate_futures_pnl entry_price side pos ticker_price
  if pnl_data.position_closed then
    (FuturesAction.externalClosure, quantity, entry_price)
  else
    let current_pnl := pnl_data.pnl
    let actual_qty := pnl_data.actual_quantity.getD quantity
    let quantity' :=
      if |actual_qty - quantity| > 1 / 1000 then actual_qty else quantity
    if current_pnl ≥ profit_target then
      (FuturesAction.takeProfit current_pnl, quantity', entry_price)
    else
      match stop_loss with
      | some sl =>
        if current_pnl ≤ -sl then
          (FuturesAction.stopLossHit current_pnl, quantity', entry_price)
        else
          (FuturesAction.continueMonitor current_pnl, quantity', entry_price)
      | none => (FuturesAction.continueMonitor current_pnl, quantity', entry_price)

/-- The `active_trade` dictionary (app.py lines 28-37): the spot position
slot.  Fields that are `None` while empty are `Option`s. -/
structure SpotSlot where
  running : Bool
  pair : Option String
  buy_price : Option ℚ
  quantity : Option ℚ
  profit_target : Option ℚ
  stop_loss : Option ℚ
  asset : Option String
  trade_type : String
deriving DecidableEq, Repr

/-- The `active_futures_trade` dictionary (app.py lines 39-49): the
derivatives position slot. -/
structure FuturesSlot where
  running : Bool
  pair : Option String
  entry_price : Option ℚ
  quantity : Option ℚ
  profit_target : Option ℚ
  stop_loss : Option ℚ
  side : Option Side
  leverage : ℤ
  position_amt : Option ℚ
deriving DecidableEq, Repr

/-- The full spot-slot reset executed under `trade_lock` on external
closure (app.py lines 630-637), profit exit (lines 701-708) and stop-loss
exit (lines 750-757): `running` is set to `False` and every positional
field is set to `None` (`trade_type` is left as is in all three blocks). -/
def spot_full_reset (s : SpotSlot) : SpotSlot :=
  { running := false
    pair := none
    buy_price := none
    quantity := none
    profit_target := none
    stop_loss := none
    asset := none
    trade_type := s.trade_type }

/-- The spot-slot transition executed under `trade_lock` on error
exhaustion — both the P&L-fetch-failure path (app.py lines 649-650) and
the exception path (lines 768-769): only the `running` key is assigned `False`; no other field is touched. -/
def spot_clear_running (s : SpotSlot) : SpotSlot :=
  { s with running := false }

/-- The full futures-slot reset executed under `futures_lock` on profit
exit (app.py lines 862-871) and stop-loss exit (lines 907-916): `running`
becomes `False`, the positional fields become `None` and `leverage` is
reset to 1. -/
def futures_full_reset (_s : FuturesSlot) : FuturesSlot :=
  { running := false
    pair := none
    entry_price := none
    quantity := none
    profit_target := none
    stop_loss := none
    side := none
    leverage := 1
    position_amt := none }

/-- The futures-slot transition executed under `futures_lock` on error
exhaustion (app.py lines 798-799 and 927-928) and on detected external
closure (lines 810-811): only `running` is set to `False`; every other
field keeps its value. -/
def futures_clear_running (s : FuturesSlot) : FuturesSlot :=
  { s with running := false }

/-- Python `s.endswith(post)`, modelled as a character-list suffix
check (equivalent to `String.endsWith`, which is defined by well-founded
recursion and therefore blocks kernel evaluation). -/
def ends_with (s post : String) : Bool :=
  post.data.isSuffixOf s.data

/-- Embedding of `validate_futures_inputs(pair, amount, profit, stop_loss,
leverage)` (app.py lines 245-269): each failed check appends its message
to the `errors` list, including the final high-leverage warning, which is
appended to the same list. -/
def validate_futures_inputs (pair : String) (amount profit : ℚ)
    (stop_loss : Option ℚ) (leverage : ℤ) : List String :=
  (if ends_with pair "USDT" then [] else ["Pair must end with USDT"]) ++
  (if amount < 10 then ["Amount must be ≥ $10 for futures trading"] else []) ++
  (if profit ≤ 0 then ["Profit must be > 0"] else []) ++
  (match stop_loss with
   | some sl => if sl ≤ 0 then ["Stop loss must be > 0"] else []
   | none => []) ++
  (if leverage < 1 ∨ leverage > 20 then
    ["Leverage must be between 1 and 20"] else []) ++
  (if leverage > 10 then
    ["⚠️ Warning: Leverage > 10x is very risky!"] else [])

/-- The gate applied by the `/futures` handler (app.py lines 1222-1227):
the command proceeds past validation exactly when the errors list is
empty (`if errors: ... return`). -/
def futures_command_proceeds (pair : String) (amount profit : ℚ)
    (stop_loss : Option ℚ) (leverage : ℤ) : Bool :=
  (validate_futures_inputs pair amount profit stop_loss leverage).isEmpty

/-- Python `round(x, p)` on exact values: round half to even at `p`
decimal digits. -/
def py_round (x : ℚ) (p : ℕ) : ℚ :=
  let y := x * 10 ^ p
  let n := ⌊y⌋
  let f := y - n
  let r : ℤ :=
    if f < 1 / 2 then n
    else if f > 1 / 2 then n + 1
    else if 2 ∣ n then n else n + 1
  (r : ℚ) / 10 ^ p

/-- The step-size rounding shared by `execute_sell_order` (app.py lines
341-346) and `execute_futures_order` (lines 418-420):
`quantity = (quantity // step_size) * step_size` followed by
`quantity = round(quantity, precision)`, where `precision` is the number
of fractional digits of the step size. -/
def round_step (step : ℚ) (precision : ℕ) (quantity : ℚ) : ℚ :=
  py_round ((⌊quantity / step⌋ : ℚ) * step) precision

/-- The funding segment of the `/futures` handler (app.py lines
1254-1281), run after the `running` flag of the slot was claimed: when the
futures wallet balance is below the requested margin the shortfall
`amount - futures_balance` must come from spot; an insufficient spot
balance or a failed transfer releases `running` (touching no other slot
field) and the order is never placed.  Returns the slot after this
segment, whether execution proceeds to `execute_futures_order`, and the
amount passed to `transfer_spot_to_futures` (if it was called). -/
def start_futures_funding (amount futures_balance spot_balance : ℚ)
    (transfer_succeeds : Bool) (slot : FuturesSlot) :
    FuturesSlot × Bool × Option ℚ :=
  if futures_balance < amount then
    let needed := amount - futures_balance
    if spot_balance < needed then
      ({ slot with running := false }, false, none)
    else if transfer_succeeds then
      (slot, true, some needed)
    else
      ({ slot with running := false }, false, some needed)
  else
    (slot, true, none)

/-- Recursive exponential smoothing step, following the words of the
spec: `EMA_next = (close - EMA_prev) * multiplier + EMA_prev`, applied
over the remaining closes in order. -/
def ema_rec (multiplier : ℚ) : ℚ → List ℚ → ℚ
  | prev, [] => prev
  | prev, c :: cs => ema_rec multiplier ((c - prev) * multiplier + prev) cs

/-- Definition following the words of the spec (spec sections 4.1 and 8):
seed = simple average of the first `period` closes, multiplier =
`2/(period+1)`, then recursive blending over the remaining closes in
order.  Stated separately from `calculate_ema` (which embeds the source)
so that the two can be compared. -/
def ema_spec (klines : List Kline) (period : ℕ) : ℚ :=
  let closes := klines.map Kline.close
  ema_rec (2 / ((period : ℚ) + 1))
    ((closes.take period).sum / (period : ℚ)) (closes.drop period)

theorem foldl_eq_ema_rec (multiplier : ℚ) (l : List ℚ) (prev : ℚ) :
    l.foldl (fun prev c => (c - prev) * multiplier + prev) prev =
      ema_rec multiplier prev l := by
  induction l generalizing prev with
  | nil => rfl
  | cons c cs ih => simp only [List.foldl_cons, ema_rec, ih]

/-- C8: for every candle sequence with at least `period` closes,
`calculate_ema` returns exactly the recursive exponential moving average
whose seed is the arithmetic mean of the first `period` closes and whose
step is `EMA_next = (close - EMA_prev) * (2/(period+1)) + EMA_prev` over
the remaining closes in order.  Determinism on identical input holds
because `calculate_ema` is a pure function of its arguments. -/
theorem calculate_ema_matches_recursive_definition (klines : List Kline)
    (period : ℕ) (h : period ≤ klines.length) :
    calculate_ema klines period = some (ema_spec klines period) := by
  simp only [calculate_ema, ema_spec, List.length_map]
  rw [if_neg (by omega : ¬ klines.length < period), foldl_eq_ema_rec]

/-- Witness for C8 at a concrete three-candle input with period 2. -/
theorem calculate_ema_matches_recursive_definition_witness :
    2 ≤ ([⟨1, 0, 1⟩, ⟨2, 1, 2⟩, ⟨3, 2, 3⟩] : List Kline).length ∧
    calculate_ema [⟨1, 0, 1⟩, ⟨2, 1, 2⟩, ⟨3, 2, 3⟩] 2 =
      some (ema_spec [⟨1, 0, 1⟩, ⟨2, 1, 2⟩, ⟨3, 2, 3⟩] 2) :=
  ⟨by decide,
   calculate_ema_matches_recursive_definition
     [⟨1, 0, 1⟩, ⟨2, 1, 2⟩, ⟨3, 2, 3⟩] 2 (by decide)⟩

theorem calculate_ema_of_short (klines : List Kline) (period : ℕ)
    (h : klines.length < period) : calculate_ema klines period = none := by
  simp only [calculate_ema, List.length_map]
  rw [if_pos h]

/-- C9: for every candle sequence shorter than the 20 closes needed by
EMA(20) (which subsumes having too few candles for 14 true ranges), the
market-condition check returns `valid = false` with reason
"Insufficient data for technical analysis"; the embedding is a total
function, so no exception can be raised. -/
theorem check_market_conditions_insufficient_data (klines : List Kline)
    (h : klines.length < 20) :
    (check_market_conditions klines).valid = false ∧
    (check_market_conditions klines).reason =
      some "Insufficient data for technical analysis" := by
  have h20 : calculate_ema klines 20 = none := calculate_ema_of_short klines 20 h
  simp only [check_market_conditions, h20]
  simp

/-- Witness for C9 at the empty candle sequence. -/
theorem check_market_conditions_insufficient_data_witness :
    ([] : List Kline).length < 20 ∧
    ((check_market_conditions ([] : List Kline)).valid = false ∧
     (check_market_conditions ([] : List Kline)).reason =
       some "Insufficient data for technical analysis") :=
  ⟨by decide, check_market_conditions_insufficient_data [] (by decide)⟩

theorem py_round_of_int (x : ℚ) (p : ℕ) (n : ℤ)
    (hx : x * 10 ^ p = (n : ℚ)) : py_round x p = x := by
  have h10 : ((10 : ℚ)) ^ p ≠ 0 := by positivity
  simp only [py_round]
  rw [hx, Int.floor_intCast, sub_self,
    if_pos (by norm_num : (0 : ℚ) < 1 / 2)]
  field_simp
  linarith [hx]

/-- C7: quantity rounding to the exchange step size is idempotent.  Any
step size with `precision` fractional digits has the form `m / 10 ^
precision`; for a quantity that is an exact integer multiple `k` of the
step, flooring to the nearest lower step multiple and rounding to the
step precision returns the quantity unchanged. -/
theorem round_step_idempotent (m p k : ℕ) (hm : 0 < m) :
    round_step ((m : ℚ) / 10 ^ p) p ((k : ℚ) * ((m : ℚ) / 10 ^ p)) =
      (k : ℚ) * ((m : ℚ) / 10 ^ p) := by
  have h10 : ((10 : ℚ)) ^ p ≠ 0 := by positivity
  have hmq : (m : ℚ) ≠ 0 := Nat.cast_ne_zero.mpr hm.ne'
  have hdiv : (k : ℚ) * ((m : ℚ) / 10 ^ p) / ((m : ℚ) / 10 ^ p) = (k : ℚ) := by
    field_simp
  simp only [round_step, hdiv, Int.floor_natCast]
  push_cast
  exact py_round_of_int _ p ((k : ℤ) * (m : ℤ)) (by push_cast; field_simp)

/-- Witness for C7 with step 0.1 (precision 1) and quantity 0.3. -/
theorem round_step_idempotent_witness :
    0 < 1 ∧
    round_step (((1 : ℕ) : ℚ) / 10 ^ (1 : ℕ)) 1
        (((3 : ℕ) : ℚ) * (((1 : ℕ) : ℚ) / 10 ^ (1 : ℕ))) =
      ((3 : ℕ) : ℚ) * (((1 : ℕ) : ℚ) / 10 ^ (1 : ℕ)) :=
  ⟨Nat.one_pos, round_step_idempotent 1 1 3 Nat.one_pos⟩

/-- C1 is false on the code: with buy price 10, recorded opening quantity
2, live wallet balance 1 and ticker price 11, the claimed P&L
`(currentPrice - entryPrice) * recordedQuantity = 2` reaches the profit
target 2, yet the P&L actually computed and compared by the monitor is
`(11 - 10) * 1 = 1` (built from the live balance), and the cycle merely
continues. -/
theorem spot_monitor_pnl_counterexample :
    (calculate_pnl 10 1 11).pnl ≠ ((11 : ℚ) - 10) * 2 ∧
    ((11 : ℚ) - 10) * 2 ≥ 2 ∧
    monitor_trade_cycle 10 2 2 none false 1 11 =
      SpotAction.continueMonitor 1 := by
  refine ⟨by norm_num [calculate_pnl], by norm_num, ?_⟩
  norm_num [monitor_trade_cycle, calculate_pnl]

/-- C1 (amended): the P&L the spot monitor compares against the profit
target and the negated stop loss equals
`(currentPrice - entryPrice) * liveWalletBalance`, where the balance is
the one fetched by `get_asset_balance` during the poll cycle; on cycles
whose 10-second balance check is not due, the recorded opening quantity
does not influence the outcome at all. -/
theorem spot_monitor_pnl_uses_live_balance
    (buy_price q q' profit_target current_balance current_price : ℚ)
    (stop_loss : Option ℚ) :
    (calculate_pnl buy_price current_balance current_price).pnl =
      (current_price - buy_price) * current_balance ∧
    monitor_trade_cycle buy_price q profit_target stop_loss false
        current_balance current_price =
      monitor_trade_cycle buy_price q' profit_target stop_loss false
        current_balance current_price := by
  constructor
  · simp only [calculate_pnl]
    ring
  · simp [monitor_trade_cycle]

/-- C2 is false on the code: with entry price 100, position amount 1,
exchange-reported unrealized profit 5 and ticker price 100, the
exchange-reported unrealized P&L (5) reaches the profit target 5, yet
the monitor compares the locally recomputed price-delta P&L
`(100 - 100) * 1 = 0` and merely continues. -/
theorem futures_monitor_pnl_counterexample :
    (calculate_futures_pnl 100 Side.LONG ⟨1, 100, 5⟩ 100).unrealized_pnl =
      some 5 ∧
    (5 : ℚ) ≥ 5 ∧
    monitor_futures_trade_cycle 100 1 5 none Side.LONG ⟨1, 100, 5⟩ 100 =
      (FuturesAction.continueMonitor 0, 1, 100) := by
  refine ⟨by norm_num [calculate_futures_pnl], by norm_num, ?_⟩
  norm_num [monitor_futures_trade_cycle, calculate_futures_pnl]

/-- C2 (amended): for every open derivatives position with nonzero
exchange-reported size, the value the monitor compares against the
thresholds is the locally recomputed price-delta P&L
(`(ticker - entry) * |positionAmt|` for LONG, reversed for SHORT); the
exchange-reported unrealized-profit field is carried along for display
but has no influence on the poll-cycle outcome. -/
theorem futures_monitor_pnl_locally_recomputed
    (entry_price q profit_target ticker amt xep u u' : ℚ)
    (stop_loss : Option ℚ) (side : Side) (h : amt ≠ 0) :
    monitor_futures_trade_cycle entry_price q profit_target stop_loss side
        ⟨amt, xep, u⟩ ticker =
      monitor_futures_trade_cycle entry_price q profit_target stop_loss side
        ⟨amt, xep, u'⟩ ticker ∧
    (calculate_futures_pnl entry_price side ⟨amt, xep, u⟩ ticker).pnl =
      (if side = Side.LONG then (ticker - entry_price) * |amt|
       else (entry_price - ticker) * |amt|) := by
  constructor
  · by_cases h0 : amt = 0 <;>
      simp [monitor_futures_trade_cycle, calculate_futures_pnl, h0]
  · simp [calculate_futures_pnl, h]

/-- Witness for the amended C2: entry 100, ticker 101, position amount 1;
the poll cycle is identical for exchange-reported unrealized profits 3
and 7, and the compared P&L is `(101 - 100) * |1|`. -/
theorem futures_monitor_pnl_locally_recomputed_witness :
    (1 : ℚ) ≠ 0 ∧
    (monitor_futures_trade_cycle 100 1 5 none Side.LONG ⟨1, 100, 3⟩ 101 =
       monitor_futures_trade_cycle 100 1 5 none Side.LONG ⟨1, 100, 7⟩ 101 ∧
     (calculate_futures_pnl 100 Side.LONG ⟨1, 100, 3⟩ 101).pnl =
       (if Side.LONG = Side.LONG then ((101 : ℚ) - 100) * |(1 : ℚ)|
        else ((100 : ℚ) - 101) * |(1 : ℚ)|)) :=
  ⟨by norm_num,
   futures_monitor_pnl_locally_recomputed 100 1 5 101 1 100 3 7 none
     Side.LONG (by norm_num)⟩

theorem calculate_futures_pnl_open (entry_price : ℚ) (side : Side)
    (pos : FuturesPosition) (t : ℚ) (h : pos.position_amt ≠ 0) :
    (calculate_futures_pnl entry_price side pos t).position_closed = false ∧
    (calculate_futures_pnl entry_price side pos t).actual_quantity =
      some |pos.position_amt| := by
  simp [calculate_futures_pnl, h]

/-- C4 is false on the code: the exchange reports entry price 101 against
a locally recorded entry price of 100 (delta 1, far beyond the claimed
0.00001 tolerance), yet the poll cycle leaves the local entry price at
100 (the claim requires it to be overwritten with 101); the source never
reads the exchange-reported entry price at all. -/
theorem futures_monitor_entry_price_counterexample :
    |(101 : ℚ) - 100| > 1 / 100000 ∧
    monitor_futures_trade_cycle 100 10 1000 none Side.LONG ⟨10, 101, 0⟩ 100 =
      (FuturesAction.continueMonitor 0, 10, 100) := by
  refine ⟨by norm_num, ?_⟩
  norm_num [monitor_futures_trade_cycle, calculate_futures_pnl]

/-- C4 (amended): in each derivatives poll cycle on an open position,
only the quantity is reconciled: when the exchange-reported size
`|positionAmt|` differs from the local quantity by more than 0.001
absolute the local quantity is overwritten with the exchange value,
otherwise it is unchanged; the local entry price is never compared
against or overwritten by the exchange-reported entry price. -/
theorem futures_monitor_reconciles_quantity_only
    (entry_price q profit_target ticker amt xep u : ℚ)
    (stop_loss : Option ℚ) (side : Side) (h : amt ≠ 0) :
    (monitor_futures_trade_cycle entry_price q profit_target stop_loss side
        ⟨amt, xep, u⟩ ticker).2.1 =
      (if |(|amt|) - q| > 1 / 1000 then |amt| else q) ∧
    (monitor_futures_trade_cycle entry_price q profit_target stop_loss side
        ⟨amt, xep, u⟩ ticker).2.2 = entry_price := by
  have hopen := calculate_futures_pnl_open entry_price side ⟨amt, xep, u⟩ ticker h
  constructor <;>
  · simp only [monitor_futures_trade_cycle, hopen.1, hopen.2, Bool.false_eq_true,
      if_false, Option.getD_some]
    cases stop_loss <;> dsimp only <;> split_ifs <;> rfl

/-- Witness for the amended C4 at the reconciliation example of the
spec: local quantity 10, exchange-reported size 10.002 (delta 0.002,
above the 0.001 tolerance), so the cycle returns quantity 10.002 and the
entry price 100 unchanged. -/
theorem futures_monitor_reconciles_quantity_only_witness :
    (10002 / 1000 : ℚ) ≠ 0 ∧
    ((monitor_futures_trade_cycle 100 10 1000 none Side.LONG
        ⟨10002 / 1000, 100, 0⟩ 100).2.1 =
      (if |(|(10002 / 1000 : ℚ)|) - 10| > 1 / 1000 then |(10002 / 1000 : ℚ)|
       else 10) ∧
     (monitor_futures_trade_cycle 100 10 1000 none Side.LONG
        ⟨10002 / 1000, 100, 0⟩ 100).2.2 = 100) :=
  ⟨by norm_num,
   futures_monitor_reconciles_quantity_only 100 10 1000 100 (10002 / 1000)
     100 0 none Side.LONG (by norm_num)⟩

/-- C5 is false on the code: the derivatives external-closure transition
(and likewise the error-exhaustion transitions of both monitors) only
sets `running` to `false`; applied to a populated slot it leaves `pair`
(and every other field) populated, so not every `running` true-to-false
transition resets the other fields. -/
theorem slot_reset_counterexample :
    (futures_clear_running
      ⟨true, some "BTCUSDT", some 100, some 1, some 5, some 1,
        some Side.LONG, 10, some 1⟩).running = false ∧
    (futures_clear_running
      ⟨true, some "BTCUSDT", some 100, some 1, some 5, some 1,
        some Side.LONG, 10, some 1⟩).pair = some "BTCUSDT" :=
  ⟨rfl, rfl⟩

/-- C5 (amended): the profit-exit, stop-loss-exit and spot
external-closure transitions reset every field of the slot in the same
locked transition; the error-exhaustion transitions of both monitors and
the derivatives external-closure transition only set `running` to
`false`, leaving all other fields as they were. -/
theorem slot_reset_transitions (s : SpotSlot) (fs : FuturesSlot) :
    (spot_full_reset s).running = false ∧
    (spot_full_reset s).pair = none ∧
    (spot_full_reset s).buy_price = none ∧
    (spot_full_reset s).quantity = none ∧
    (spot_full_reset s).profit_target = none ∧
    (spot_full_reset s).stop_loss = none ∧
    (spot_full_reset s).asset = none ∧
    (futures_full_reset fs).running = false ∧
    (futures_full_reset fs).pair = none ∧
    (futures_full_reset fs).entry_price = none ∧
    (futures_full_reset fs).quantity = none ∧
    (futures_full_reset fs).profit_target = none ∧
    (futures_full_reset fs).stop_loss = none ∧
    (futures_full_reset fs).side = none ∧
    (futures_full_reset fs).leverage = 1 ∧
    (futures_full_reset fs).position_amt = none ∧
    (spot_clear_running s).running = false ∧
    (spot_clear_running s).pair = s.pair ∧
    (spot_clear_running s).buy_price = s.buy_price ∧
    (spot_clear_running s).quantity = s.quantity ∧
    (spot_clear_running s).profit_target = s.profit_target ∧
    (spot_clear_running s).stop_loss = s.stop_loss ∧
    (spot_clear_running s).asset = s.asset ∧
    (futures_clear_running fs).running = false ∧
    (futures_clear_running fs).pair = fs.pair ∧
    (futures_clear_running fs).entry_price = fs.entry_price ∧
    (futures_clear_running fs).quantity = fs.quantity ∧
    (futures_clear_running fs).profit_target = fs.profit_target ∧
    (futures_clear_running fs).stop_loss = fs.stop_loss ∧
    (futures_clear_running fs).side = fs.side ∧
    (futures_clear_running fs).leverage = fs.leverage ∧
    (futures_clear_running fs).position_amt = fs.position_amt :=
  ⟨rfl, rfl, rfl, rfl, rfl, rfl, rfl, rfl, rfl, rfl, rfl, rfl, rfl, rfl,
   rfl, rfl, rfl, rfl, rfl, rfl, rfl, rfl, rfl, rfl, rfl, rfl, rfl, rfl,
   rfl, rfl, rfl, rfl⟩

/-- C6: in every monitor poll cycle with successfully computed P&L (open
position, no external closure), both monitors close for profit exactly
when the computed P&L is at or above the profit target (equality
included), otherwise close for loss exactly when a stop loss is set and
the P&L is at or below its negation (equality included), and a P&L
strictly between the two thresholds triggers neither. -/
theorem monitor_thresholds_inclusive
    (buy_price q profit_target bal price sl : ℚ)
    (entry_price fq fpt ft fsl : ℚ) (side : Side) (pos : FuturesPosition)
    (hnc : ¬ bal < q * (1 / 100)) (hfamt : pos.position_amt ≠ 0) :
    monitor_trade_cycle buy_price q profit_target (some sl) true bal price =
      (if (calculate_pnl buy_price bal price).pnl ≥ profit_target then
        SpotAction.takeProfit (calculate_pnl buy_price bal price).pnl
       else if (calculate_pnl buy_price bal price).pnl ≤ -sl then
        SpotAction.stopLossHit (calculate_pnl buy_price bal price).pnl
       else SpotAction.continueMonitor (calculate_pnl buy_price bal price).pnl) ∧
    (monitor_futures_trade_cycle entry_price fq fpt (some fsl) side pos ft).1 =
      (if (calculate_futures_pnl entry_price side pos ft).pnl ≥ fpt then
        FuturesAction.takeProfit
          (calculate_futures_pnl entry_price side pos ft).pnl
       else if (calculate_futures_pnl entry_price side pos ft).pnl ≤ -fsl then
        FuturesAction.stopLossHit
          (calculate_futures_pnl entry_price side pos ft).pnl
       else FuturesAction.continueMonitor
          (calculate_futures_pnl entry_price side pos ft).pnl) := by
  constructor
  · simp only [monitor_trade_cycle]
    rw [if_neg (by simpa using hnc)]
  · have hopen := calculate_futures_pnl_open entry_price side pos ft hfamt
    simp only [monitor_futures_trade_cycle, hopen.1, Bool.false_eq_true,
      if_false]
    split_ifs <;> rfl

/-- Witness for C6: spot buy 10, balance 1, ticker 11, target 1, stop 1
(P&L 1 hits the target exactly); futures entry 100, ticker 101, position
amount 1, target 1, stop 1. -/
theorem monitor_thresholds_inclusive_witness :
    ¬ (1 : ℚ) < 1 * (1 / 100) ∧
    ((⟨1, 100, 0⟩ : FuturesPosition)).position_amt ≠ 0 ∧
    (monitor_trade_cycle 10 1 1 (some 1) true 1 11 =
      (if (calculate_pnl 10 1 11).pnl ≥ 1 then
        SpotAction.takeProfit (calculate_pnl 10 1 11).pnl
       else if (calculate_pnl 10 1 11).pnl ≤ -1 then
        SpotAction.stopLossHit (calculate_pnl 10 1 11).pnl
       else SpotAction.continueMonitor (calculate_pnl 10 1 11).pnl) ∧
    (monitor_futures_trade_cycle 100 1 1 (some 1) Side.LONG ⟨1, 100, 0⟩ 101).1 =
      (if (calculate_futures_pnl 100 Side.LONG ⟨1, 100, 0⟩ 101).pnl ≥ 1 then
        FuturesAction.takeProfit
          (calculate_futures_pnl 100 Side.LONG ⟨1, 100, 0⟩ 101).pnl
       else if (calculate_futures_pnl 100 Side.LONG ⟨1, 100, 0⟩ 101).pnl ≤ -1 then
        FuturesAction.stopLossHit
          (calculate_futures_pnl 100 Side.LONG ⟨1, 100, 0⟩ 101).pnl
       else FuturesAction.continueMonitor
          (calculate_futures_pnl 100 Side.LONG ⟨1, 100, 0⟩ 101).pnl)) :=
  ⟨by norm_num, by norm_num,
   monitor_thresholds_inclusive 10 1 1 1 11 1 100 1 1 101 1 Side.LONG
     ⟨1, 100, 0⟩ (by norm_num) (by norm_num)⟩

/-- C3 (code bug): with otherwise-valid inputs (pair BTCUSDT, amount 20,
profit 2, no stop loss), leverage 11 makes `validate_futures_inputs`
return a nonempty list holding only the high-risk warning, and the
command handler rejects any command whose errors list is nonempty, so a
leverage in (10, 20] is rejected rather than merely flagged; leverage 10
passes and the command proceeds. -/
theorem high_leverage_warning_rejects_command :
    validate_futures_inputs "BTCUSDT" 20 2 none 11 =
      ["⚠️ Warning: Leverage > 10x is very risky!"] ∧
    futures_command_proceeds "BTCUSDT" 20 2 none 11 = false ∧
    futures_command_proceeds "BTCUSDT" 20 2 none 10 = true := by
  have hsuf : ends_with "BTCUSDT" "USDT" = true := by decide
  refine ⟨?_, ?_, ?_⟩ <;>
    norm_num [validate_futures_inputs, futures_command_proceeds, hsuf]

/-- C10: when an accepted open-derivatives command finds the futures
wallet balance below the requested margin, the amount handed to the
spot-to-futures transfer is exactly the shortfall `amount - futures
balance` (and a transfer is attempted exactly when the spot balance
covers it); when the spot balance is below the shortfall or the transfer
fails, no order is submitted and the slot transition only resets
`running` to `false`; otherwise the order path proceeds with the slot
untouched. -/
theorem start_futures_funding_transfers_shortfall
    (amount fb sb : ℚ) (ok : Bool) (s : FuturesSlot) (hlow : fb < amount) :
    ((start_futures_funding amount fb sb ok s).2.2 =
      if sb < amount - fb then none else some (amount - fb)) ∧
    (sb < amount - fb ∨ ok = false →
      (start_futures_funding amount fb sb ok s).2.1 = false ∧
      (start_futures_funding amount fb sb ok s).1 =
        { s with running := false }) ∧
    (¬ sb < amount - fb → ok = true →
      (start_futures_funding amount fb sb ok s).2.1 = true ∧
      (start_futures_funding amount fb sb ok s).1 = s) := by
  simp only [start_futures_funding, if_pos hlow]
  cases ok <;> split_ifs <;> simp_all

/-- Witness for C10: margin 20, futures balance 5, spot balance 100,
transfer succeeds: the transferred amount is the shortfall 15 and the
order path proceeds on an untouched slot. -/
theorem start_futures_funding_transfers_shortfall_witness :
    (5 : ℚ) < 20 ∧
    (((start_futures_funding 20 5 100 true
        ⟨true, none, none, none, none, none, none, 1, none⟩).2.2 =
      if (100 : ℚ) < 20 - 5 then none else some ((20 : ℚ) - 5)) ∧
    ((100 : ℚ) < 20 - 5 ∨ true = false →
      (start_futures_funding 20 5 100 true
        ⟨true, none, none, none, none, none, none, 1, none⟩).2.1 = false ∧
      (start_futures_funding 20 5 100 true
        ⟨true, none, none, none, none, none, none, 1, none⟩).1 =
        { (⟨true, none, none, none, none, none, none, 1, none⟩ : FuturesSlot)
          with running := false }) ∧
    (¬ (100 : ℚ) < 20 - 5 → true = true →
      (start_futures_funding 20 5 100 true
        ⟨true, none, none, none, none, none, none, 1, none⟩).2.1 = true ∧
      (start_futures_funding 20 5 100 true
        ⟨true, none, none, none, none, none, none, 1, none⟩).1 =
        ⟨true, none, none, none, none, none, none, 1, none⟩)) :=
  ⟨by norm_num,
   start_futures_funding_transfers_shortfall 20 5 100 true
     ⟨true, none, none, none, none, none, none, 1, none⟩ (by norm_num)⟩
